import Mathlib

/-!
Shallow embedding of the window-extraction resolver of Cytomine PIMS
(`pims/api/window.py` and `pims/api/utils/parameter.py`), together with
spec-modelled definitions for the collaborator functions those files call
but whose bodies live elsewhere in the repository.
-/

/-- Error taxonomy of the window endpoint, as raised by the code under
`pims/api` (`FilepathNotFoundProblem`, `NoAppropriateRepresentationProblem`)
and by the validation collaborators described in the spec. -/
inductive WinError where
  | FilepathNotFound : WinError
  | NoAppropriateRepresentation : WinError
  | OutOfBoundsRegion : WinError
  | InvalidTileAddress : WinError
  | ReductionRequired : String → WinError
  | ArraySizeMismatch : String → WinError
deriving DecidableEq, Repr

/-- Abstraction of a `pims.files.file.Path` for `imagepath_parameter`: the two
predicates the function queries (`path.exists()` and `path.is_single()`). -/
structure FsPath where
  path_exists : Bool
  is_single : Bool
deriving DecidableEq, Repr

/-- Embedding of `imagepath_parameter` (`pims/api/utils/parameter.py`,
lines 33-44): raise `FilepathNotFoundProblem` when the path does not exist,
then `NoAppropriateRepresentationProblem` when it is not a single image,
otherwise return the path. -/
def imagepath_parameter (p : FsPath) : Except WinError FsPath :=
  if ¬ p.path_exists then Except.error WinError.FilepathNotFound
  else if ¬ p.is_single then Except.error WinError.NoAppropriateRepresentation
  else Except.ok p

/-- Embedding of the `bad_chars` list of `sanitize_filename`
(`pims/api/utils/parameter.py`, lines 49-50). The apostrophe, double quote
and backquote are written by code point (39, 34, 96). -/
def bad_chars : List Char :=
  [ ' ', '(', ')', '+', '*', '/', '@', Char.ofNat 39, Char.ofNat 34,
    '$', '€', '£', '°', Char.ofNat 96, '[', ']', '#', '?' ]

/-- Character-level embedding of the comprehension in `sanitize_filename`
(`pims/api/utils/parameter.py`, line 51): each character of the library
sanitizer's output is kept when it is not a bad character and replaced by the
replacement string otherwise, and the pieces are concatenated. -/
def sanitize_chars (sanitized : List Char) (replacement : List Char) : List Char :=
  (sanitized.map (fun c => if bad_chars.contains c then replacement else [ c ])).flatten

/-- Embedding of `sanitize_filename` (`pims/api/utils/parameter.py`,
lines 47-51). The underlying library call `_sanitize_filename` is external to
the repository, so the function is modelled on its (arbitrary) output string
`sanitized`. -/
def sanitize_filename (sanitized : String) (replacement : String) : String :=
  String.mk (sanitize_chars sanitized.data replacement.data)

/-- Tier addressing axis (`pims.api.utils.models.TierIndexType`): a tier is
addressed either by `level` (0 = full resolution) or by `zoom`
(`max_zoom` = full resolution). -/
inductive TierIndexType where
  | LEVEL : TierIndexType
  | ZOOM : TierIndexType
deriving DecidableEq, Repr

/-- Axis-aligned pixel rectangle (`pims.processing.region.Region`), as used by
the window endpoint. -/
structure Region where
  top : Int
  left : Int
  width : Int
  height : Int
deriving DecidableEq, Repr

/-- Modelled from the spec: one tier of the pyramid, with its pixel extents
and its regular tiling grid (the `Pyramid` class itself is not under the
staged sources; only its query contract is used by `window.py`). -/
structure PyramidTier where
  width : Nat
  height : Nat
  tile_width : Nat
  tile_height : Nat
deriving DecidableEq, Repr

/-- Modelled from the spec: number of tile columns of the tier's grid. -/
def PyramidTier.grid_width (t : PyramidTier) : Nat :=
  (t.width + t.tile_width - 1) / t.tile_width

/-- Modelled from the spec: number of tile rows of the tier's grid. -/
def PyramidTier.grid_height (t : PyramidTier) : Nat :=
  (t.height + t.tile_height - 1) / t.tile_height

/-- Modelled from the spec: number of tiles of the tier's grid, the bound on
the linear tile index `ti`. -/
def PyramidTier.tile_count (t : PyramidTier) : Nat :=
  t.grid_width * t.grid_height

/-- Modelled from the spec: the pixel rectangle of the tile at grid
coordinate `(tx, ty)` of the tier, clipped to the tier's extents. -/
def PyramidTier.get_txty_tile (t : PyramidTier) (tx ty : Nat) : Region :=
  { top := (ty * t.tile_height : Nat)
    left := (tx * t.tile_width : Nat)
    width := (min t.tile_width (t.width - tx * t.tile_width) : Nat)
    height := (min t.tile_height (t.height - ty * t.tile_height) : Nat) }

/-- Modelled from the spec: the pixel rectangle of the tile with linear index
`ti` of the tier, the grid being enumerated row by row. -/
def PyramidTier.get_ti_tile (t : PyramidTier) (ti : Nat) : Region :=
  t.get_txty_tile (ti % t.grid_width) (ti / t.grid_width)

/-- Modelled from the spec: the ordered hierarchy of tiers, `tiers.head` being
full resolution (level 0). -/
structure Pyramid where
  tiers : List PyramidTier
deriving DecidableEq, Repr

/-- Modelled from the spec: the pyramid's maximum zoom, the zoom of level 0. -/
def Pyramid.max_zoom (p : Pyramid) : Nat := p.tiers.length - 1

/-- Modelled from the spec: tier lookup by index, on either addressing axis
(`level i` is `zoom (max_zoom - i)`). -/
def Pyramid.get_tier_at (p : Pyramid) (idx : Nat) (tit : TierIndexType) : PyramidTier :=
  match tit with
  | TierIndexType.LEVEL => p.tiers.getD idx ⟨0, 0, 1, 1⟩
  | TierIndexType.ZOOM => p.tiers.getD (p.max_zoom - idx) ⟨0, 0, 1, 1⟩

/-- Modelled from the spec: `check_tileindex_validity` fails with an invalid
tile address unless `ti` lies in `[0, tile_count)` of the reference tier. -/
def check_tileindex_validity (p : Pyramid) (ti : Int) (ref : Nat) (tit : TierIndexType) :
    Except WinError Unit :=
  if 0 ≤ ti ∧ ti < ((p.get_tier_at ref tit).tile_count : Int) then Except.ok ()
  else Except.error WinError.InvalidTileAddress

/-- Modelled from the spec: `check_tilecoord_validity` fails with an invalid
tile address unless `(tx, ty)` lies within the reference tier's grid
extents. -/
def check_tilecoord_validity (p : Pyramid) (tx ty : Int) (ref : Nat) (tit : TierIndexType) :
    Except WinError Unit :=
  if 0 ≤ tx ∧ tx < ((p.get_tier_at ref tit).grid_width : Int) ∧
     0 ≤ ty ∧ ty < ((p.get_tier_at ref tit).grid_height : Int) then Except.ok ()
  else Except.error WinError.InvalidTileAddress

/-- Modelled from the spec: `parse_region` builds the pixel rectangle from the
raw `top`, `left`, `width`, `height` fields against the reference tier and
fails with an out-of-bounds condition unless bounds checking is suppressed
(`silent_oob`); `window.py` calls it with `silent_oob = false`. -/
def parse_region (tier : PyramidTier) (top left width height : Int)
    (silent_oob : Bool) : Except WinError Region :=
  let r : Region := { top := top, left := left, width := width, height := height }
  if silent_oob then Except.ok r
  else if 0 ≤ top ∧ 0 ≤ left ∧ 0 ≤ width ∧ 0 ≤ height ∧
          left + width ≤ (tier.width : Int) ∧ top + height ≤ (tier.height : Int) then
    Except.ok r
  else Except.error WinError.OutOfBoundsRegion

/-- Key of a Python `dict`, as tested by the `in` operator in `_show_window`:
the payload's own keys are strings, but line 134 of `window.py` tests the
two-string tuple `('tx', 'ty')` as a key. -/
inductive PyKey where
  | str : String → PyKey
  | pair : String → String → PyKey
deriving DecidableEq, Repr

/-- Raw region payload: the `dict` produced for the `region` field of a
`WindowRequest`, as association list from keys to numeric values. -/
abbrev RegionPayload := List (PyKey × Int)

/-- Python `k in d`: the key occurs in the dict. -/
def hasKey (d : RegionPayload) (k : PyKey) : Bool :=
  d.any (fun kv => kv.fst == k)

/-- Python `d[k]` on a dict that holds `k` (0 when absent, a case the code
never reads). -/
def getVal (d : RegionPayload) (k : PyKey) : Int :=
  match d.find? (fun kv => kv.fst == k) with
  | some kv => kv.snd
  | none => 0

/-- Payloads coming from the request model only carry string keys. -/
def stringKeyed (d : RegionPayload) : Bool :=
  d.all (fun kv => match kv.fst with
    | PyKey.str _ => true
    | PyKey.pair _ _ => false)

/-- Outcome of the region-dispatch block of `_show_window`: either a parsed
`Region`, or the payload left untouched when no branch fired. -/
inductive ResolvedWindowRegion where
  | resolved : Region → ResolvedWindowRegion
  | rawDict : RegionPayload → ResolvedWindowRegion
deriving DecidableEq, Repr

/-- Effective reference tier index (`window.py` lines 110-114): when absent it
defaults to level 0 or to the maximum zoom, according to the addressing
axis. -/
def effective_reference_tier (p : Pyramid) (tit : TierIndexType) (ref : Option Nat) : Nat :=
  match ref with
  | some i => i
  | none =>
    match tit with
    | TierIndexType.LEVEL => 0
    | TierIndexType.ZOOM => p.max_zoom

/-- Embedding of the region-dispatch block of `_show_window` (`window.py`
lines 107-143): an `if/elif/elif` chain keyed on field presence. The `top`
branch tests the string key `top`; the `ti` branch tests the string key `ti`;
the tile-coordinate branch tests — exactly as the Python source does — the
tuple `('tx', 'ty')` as a dict key. When no branch fires, the payload is left
as a raw dict. -/
def resolve_window_region (p : Pyramid) (d : RegionPayload)
    (tit : TierIndexType) (ref : Option Nat) : Except WinError ResolvedWindowRegion :=
  let refIdx := effective_reference_tier p tit ref
  let tier := p.get_tier_at refIdx tit
  if hasKey d (PyKey.str "top") then
    match parse_region tier (getVal d (PyKey.str "top")) (getVal d (PyKey.str "left"))
        (getVal d (PyKey.str "width")) (getVal d (PyKey.str "height")) false with
    | Except.ok r => Except.ok (ResolvedWindowRegion.resolved r)
    | Except.error e => Except.error e
  else if hasKey d (PyKey.str "ti") then
    match check_tileindex_validity p (getVal d (PyKey.str "ti")) refIdx tit with
    | Except.ok _ =>
      Except.ok (ResolvedWindowRegion.resolved (tier.get_ti_tile (getVal d (PyKey.str "ti")).toNat))
    | Except.error e => Except.error e
  else if hasKey d (PyKey.pair "tx" "ty") then
    match check_tilecoord_validity p (getVal d (PyKey.str "tx")) (getVal d (PyKey.str "ty"))
        refIdx tit with
    | Except.ok _ =>
      Except.ok (ResolvedWindowRegion.resolved
        (tier.get_txty_tile (getVal d (PyKey.str "tx")).toNat (getVal d (PyKey.str "ty")).toNat))
    | Except.error e => Except.error e
  else Except.ok (ResolvedWindowRegion.rawDict d)

/-- Modelled from the spec: `check_array_size_parameters`
(`pims.utils.iterables`, not under the staged sources) receives named arrays
and the allowed sizes and fails with an array-size mismatch naming the first
offending parameter when some array's length is not allowed. The embedding
receives each parameter as its name paired with its length. -/
def check_array_size_parameters (params : List (String × Nat)) (allowed : List Nat) :
    Except WinError Unit :=
  match params.find? (fun pr => ! allowed.contains pr.snd) with
  | some pr => Except.error (WinError.ArraySizeMismatch pr.fst)
  | none => Except.ok ()

/-- Embedding of the first arity check of `_show_window` (`window.py` lines
169-172): `min_intensities`, `max_intensities`, `colormaps` and `gammas` are
checked against the allowed lengths `[0, 1, len(channels)]`. -/
def window_channel_arrays_check (n kmin kmax kcmap kgam : Nat) : Except WinError Unit :=
  check_array_size_parameters
    [("min_intensities", kmin), ("max_intensities", kmax), ("colormaps", kcmap), ("gammas", kgam)]
    [0, 1, n]

/-- Embedding of the second arity check of `_show_window` (`window.py` lines
184-187): `filters` is checked against the allowed lengths `[0, 1]` only. -/
def window_filters_check (kfilters : Nat) : Except WinError Unit :=
  check_array_size_parameters [("filters", kfilters)] [0, 1]

/-- Modelled from the spec: broadcasting of one accepted channel-parameter
array over the `n` resolved channels — length 0 yields the type-specific
default for every channel, length 1 broadcasts the single value, length `n`
is used as-is. -/
def broadcast_channel_parameter (n : Nat) (deflt : Int) (xs : List Int) : List Int :=
  if xs.length = 0 then List.replicate n deflt
  else if xs.length = 1 then List.replicate n (xs.headD deflt)
  else xs

/-- Reduction function combining several indices of one axis
(`pims.api.utils.models.ChannelReduction` and kin). -/
inductive Reduction where
  | ADD : Reduction
  | MEAN : Reduction
  | MIN : Reduction
  | MAX : Reduction
deriving DecidableEq, Repr

/-- Modelled from the spec: `check_reduction_validity`
(`pims.api.utils.input_parameter`, not under the staged sources) fails with a
reduction-required error for the named axis when the resolved index sequence
has more than one element and no reduction function is supplied; otherwise it
succeeds. -/
def check_reduction_validity (indexes : List Nat) (reduction : Option Reduction)
    (axis : String) : Except WinError Unit :=
  if 1 < indexes.length ∧ reduction = none then
    Except.error (WinError.ReductionRequired axis)
  else Except.ok ()

/-- Modelled from the spec: `remove_useless_channels`
(`pims.api.utils.processing_parameter`, not under the staged sources) drops
from the working set the channels whose effective contribution is a no-op —
abstracted by the predicate `isUseless` on one channel's entry — and prunes
the five parallel per-channel arrays in lockstep. -/
def remove_useless_channels (isUseless : Nat → Int → Int → Int → Int → Bool)
    (channels : List Nat) (min_intensities max_intensities colormaps gammas : List Int) :
    List Nat × List Int × List Int × List Int × List Int :=
  let kept := (List.range channels.length).filter (fun i =>
    ! isUseless (channels.getD i 0) (min_intensities.getD i 0) (max_intensities.getD i 0)
        (colormaps.getD i 0) (gammas.getD i 0))
  (kept.map (fun i => channels.getD i 0),
   kept.map (fun i => min_intensities.getD i 0),
   kept.map (fun i => max_intensities.getD i 0),
   kept.map (fun i => colormaps.getD i 0),
   kept.map (fun i => gammas.getD i 0))

/-- Annotation style mode (`pims.api.utils.models.AnnotationStyleMode`). -/
inductive AnnotationStyleMode where
  | DRAWING : AnnotationStyleMode
  | MASK : AnnotationStyleMode
deriving DecidableEq, Repr, BEq

/-- Shape colors used by the style defaults (`pims.utils.color`). -/
inductive Color where
  | red : Color
  | white : Color
  | other : Color
deriving DecidableEq, Repr

/-- Constant `RED` of `pims.utils.color`. -/
def RED : Color := Color.red

/-- Constant `WHITE` of `pims.utils.color`. -/
def WHITE : Color := Color.white

/-- Annotation style payload of the window request: the mode together with
the request's point-envelope expansion length. -/
structure AnnotationStyle where
  mode : AnnotationStyleMode
  point_envelope_length : Option Nat
deriving DecidableEq, Repr

/-- Arguments `_show_window` passes to the annotation parser: the ignored
fields, the per-field defaults and the point-envelope expansion length
(`window.py` lines 192-206). -/
structure AnnotationParseSettings where
  ignored_fields : List String
  default_stroke_color : Option Color
  default_stroke_width : Option Nat
  default_fill_color : Option Color
  point_envelope_length : Option Nat
deriving DecidableEq, Repr

/-- Embedding of the per-mode style defaults of `_show_window` (`window.py`
lines 193-200): `DRAWING` ignores the fill color, defaults the stroke color
to `RED` and the stroke width to 1, and takes the point-envelope length from
the request; any other mode (`MASK`) ignores the stroke fields, defaults the
fill color to `WHITE` and uses no point-envelope length. -/
def annotation_parse_settings (style : AnnotationStyle) : AnnotationParseSettings :=
  match style.mode with
  | AnnotationStyleMode.DRAWING =>
    { ignored_fields := ["fill_color"]
      default_stroke_color := some RED
      default_stroke_width := some 1
      default_fill_color := none
      point_envelope_length := style.point_envelope_length }
  | AnnotationStyleMode.MASK =>
    { ignored_fields := ["stroke_width", "stroke_color"]
      default_stroke_color := none
      default_stroke_width := none
      default_fill_color := some WHITE
      point_envelope_length := none }

/-- Kind of image response assembled at the end of `_show_window`. -/
inductive ImageResponseKind where
  | MaskResponse : ImageResponseKind
  | WindowResponse : ImageResponseKind
deriving DecidableEq, Repr

/-- Embedding of the response selection of `_show_window` (`window.py` lines
212-228): a `MaskResponse` is built exactly when the annotation payload is
truthy, the style payload is present and its mode is `MASK`; every other case
builds a `WindowResponse`. -/
def select_window_response (has_annotations : Bool) (style : Option AnnotationStyle) :
    ImageResponseKind :=
  let mask := has_annotations &&
    (match style with
     | some st => st.mode == AnnotationStyleMode.MASK
     | none => false)
  if mask then ImageResponseKind.MaskResponse else ImageResponseKind.WindowResponse

/-- Concrete single-tier pyramid used by the concrete theorems: a 600x512
image with 256x256 tiles, hence a 3x2 tile grid at level 0. -/
def examplePyramid : Pyramid := { tiers := [⟨600, 512, 256, 256⟩] }

/-- Concrete region payload addressing the tile at grid coordinate (1, 1)
through the string keys `tx` and `ty`, as the request model produces. -/
def txtyPayload : RegionPayload := [(PyKey.str "tx", 1), (PyKey.str "ty", 1)]

/-- Concrete region payload carrying two region descriptors at once: the
normalized fields and a tile index. -/
def ambiguousPayload : RegionPayload :=
  [(PyKey.str "top", 0), (PyKey.str "left", 0), (PyKey.str "width", 10),
   (PyKey.str "height", 10), (PyKey.str "ti", 0)]

/-- Helper: a payload whose keys are all strings never contains the tuple key
`('tx', 'ty')`, so the tile-coordinate branch of the dispatch never fires. -/
theorem stringKeyed_no_pair_key (d : RegionPayload) (a b : String)
    (h : stringKeyed d = true) : hasKey d (PyKey.pair a b) = false := by
  unfold stringKeyed at h
  rw [List.all_eq_true] at h
  unfold hasKey
  rw [← Bool.not_eq_true, List.any_eq_true]
  rintro ⟨kv, hkv, hbeq⟩
  have hs := h kv hkv
  rcases kv with ⟨k, v⟩
  cases k with
  | str s => simp at hbeq
  | pair x y => simp at hs

/-- C1: the tile-coordinate branch of `_show_window` tests the tuple
`('tx', 'ty')` as a dict key, which a string-keyed payload never contains:
a payload addressing the in-grid tile `(1, 1)` is left unresolved as a raw
dict instead of being validated and translated to that tile's pixel
rectangle. -/
theorem C1_tilecoord_branch_never_fires :
    check_tilecoord_validity examplePyramid 1 1 0 TierIndexType.LEVEL = Except.ok () ∧
    stringKeyed txtyPayload = true ∧
    resolve_window_region examplePyramid txtyPayload TierIndexType.LEVEL (some 0) =
      Except.ok (ResolvedWindowRegion.rawDict txtyPayload) :=
  ⟨rfl, rfl, rfl⟩

/-- C2 counterexample: a payload holding both the normalized descriptor and a
tile index is not rejected — it resolves through the normalized branch. -/
theorem C2_ambiguous_payload_resolves :
    hasKey ambiguousPayload (PyKey.str "top") = true ∧
    hasKey ambiguousPayload (PyKey.str "ti") = true ∧
    resolve_window_region examplePyramid ambiguousPayload TierIndexType.LEVEL (some 0) =
      Except.ok (ResolvedWindowRegion.resolved { top := 0, left := 0, width := 10, height := 10 }) :=
  ⟨rfl, rfl, rfl⟩

/-- C2 (amended): mode selection follows the first-match precedence of the
`if/elif` chain — the normalized branch wins whenever `top` is present, the
tile-index branch wins whenever `ti` is present and `top` is not, and a
string-keyed payload with neither field is passed through as a raw dict
rather than rejected. -/
theorem C2_region_dispatch_precedence (p : Pyramid) (tit : TierIndexType)
    (ref : Option Nat) (d : RegionPayload) :
    (hasKey d (PyKey.str "top") = true →
      resolve_window_region p d tit ref =
        Except.map ResolvedWindowRegion.resolved
          (parse_region (p.get_tier_at (effective_reference_tier p tit ref) tit)
            (getVal d (PyKey.str "top")) (getVal d (PyKey.str "left"))
            (getVal d (PyKey.str "width")) (getVal d (PyKey.str "height")) false)) ∧
    (hasKey d (PyKey.str "top") = false → hasKey d (PyKey.str "ti") = true →
      resolve_window_region p d tit ref =
        Except.map
          (fun _ => ResolvedWindowRegion.resolved
            ((p.get_tier_at (effective_reference_tier p tit ref) tit).get_ti_tile
              (getVal d (PyKey.str "ti")).toNat))
          (check_tileindex_validity p (getVal d (PyKey.str "ti"))
            (effective_reference_tier p tit ref) tit)) ∧
    (hasKey d (PyKey.str "top") = false → hasKey d (PyKey.str "ti") = false →
      stringKeyed d = true →
      resolve_window_region p d tit ref = Except.ok (ResolvedWindowRegion.rawDict d)) := by
  refine ⟨?_, ?_, ?_⟩
  · intro htop
    unfold resolve_window_region
    rw [htop]
    simp only [if_true]
    cases parse_region (p.get_tier_at (effective_reference_tier p tit ref) tit)
        (getVal d (PyKey.str "top")) (getVal d (PyKey.str "left"))
        (getVal d (PyKey.str "width")) (getVal d (PyKey.str "height")) false <;>
      simp [Except.map]
  · intro htop hti
    unfold resolve_window_region
    rw [htop, hti]
    simp only [Bool.false_eq_true, if_false, if_true]
    cases check_tileindex_validity p (getVal d (PyKey.str "ti"))
        (effective_reference_tier p tit ref) tit <;>
      simp [Except.map]
  · intro htop hti hsk
    unfold resolve_window_region
    rw [htop, hti, stringKeyed_no_pair_key d "tx" "ty" hsk]
    simp

/-- Helper: the array-size check succeeds exactly when every named array has
an allowed length. -/
theorem check_array_size_ok_iff (params : List (String × Nat)) (allowed : List Nat) :
    check_array_size_parameters params allowed = Except.ok () ↔
      ∀ pr ∈ params, allowed.contains pr.snd = true := by
  unfold check_array_size_parameters
  cases hf : params.find? (fun pr => ! allowed.contains pr.snd) with
  | none =>
    simp only [true_iff]
    intro pr hpr
    have := List.find?_eq_none.mp hf pr hpr
    simpa using this
  | some pr =>
    simp only [reduceCtorEq, false_iff]
    intro hall
    have hmem := List.mem_of_find?_eq_some hf
    have hforb := List.find?_some hf
    have hm := hall pr hmem
    simp at hforb
    exact hforb (List.elem_iff.mp hm)

/-- Helper: the array-size check never fails with anything but an
array-size mismatch. -/
theorem check_array_size_ok_or_mismatch (params : List (String × Nat)) (allowed : List Nat) :
    check_array_size_parameters params allowed = Except.ok () ∨
      ∃ nm, check_array_size_parameters params allowed =
        Except.error (WinError.ArraySizeMismatch nm) := by
  unfold check_array_size_parameters
  cases params.find? (fun pr => ! allowed.contains pr.snd) with
  | none => exact Or.inl rfl
  | some pr => exact Or.inr ⟨pr.fst, rfl⟩

/-- C3 counterexample: with 2 resolved channels, a `filters` array of length
2 has a length in {0, 1, n} yet is rejected with an array-size mismatch,
because `_show_window` checks `filters` against the allowed lengths
`[0, 1]` only. -/
theorem C3_filters_length_n_rejected :
    ((2 : Nat) = 0 ∨ (2 : Nat) = 1 ∨ (2 : Nat) = 2) ∧
    window_filters_check 2 = Except.error (WinError.ArraySizeMismatch "filters") :=
  ⟨Or.inr (Or.inr rfl), rfl⟩

/-- C3 (amended): for `min_intensities`, `max_intensities`, `colormaps` and
`gammas` the check accepts exactly the lengths {0, 1, n} and any failure is
an array-size mismatch, and an accepted array broadcasts to a vector of
length exactly `n`; `filters` however is checked against the allowed lengths
{0, 1} only, regardless of the channel count. -/
theorem C3_channel_array_arity (n kmin kmax kcmap kgam kf : Nat) (deflt : Int)
    (xs : List Int) :
    (window_channel_arrays_check n kmin kmax kcmap kgam = Except.ok () ↔
      (kmin = 0 ∨ kmin = 1 ∨ kmin = n) ∧ (kmax = 0 ∨ kmax = 1 ∨ kmax = n) ∧
      (kcmap = 0 ∨ kcmap = 1 ∨ kcmap = n) ∧ (kgam = 0 ∨ kgam = 1 ∨ kgam = n)) ∧
    (window_channel_arrays_check n kmin kmax kcmap kgam = Except.ok () ∨
      ∃ nm, window_channel_arrays_check n kmin kmax kcmap kgam =
        Except.error (WinError.ArraySizeMismatch nm)) ∧
    (window_filters_check kf = Except.ok () ↔ (kf = 0 ∨ kf = 1)) ∧
    ((xs.length = 0 ∨ xs.length = 1 ∨ xs.length = n) →
      (broadcast_channel_parameter n deflt xs).length = n) := by
  refine ⟨?_, ?_, ?_, ?_⟩
  · rw [window_channel_arrays_check, check_array_size_ok_iff]
    simp [List.elem_iff]
  · exact check_array_size_ok_or_mismatch _ _
  · rw [window_filters_check, check_array_size_ok_iff]
    simp [List.elem_iff]
  · intro hk
    unfold broadcast_channel_parameter
    split_ifs with h0 h1
    · exact List.length_replicate n deflt
    · exact List.length_replicate n _
    · rcases hk with h | h | h
      · exact absurd h h0
      · exact absurd h h1
      · exact h

/-- C4: for each dimension axis, a selection resolving to more than one index
with no reduction function fails with a reduction-required error for that
axis, and a selection resolving to at most one index succeeds whether or not
a reduction function is supplied. -/
theorem C4_reduction_required (indexes : List Nat) (r : Option Reduction) (axis : String) :
    (1 < indexes.length → r = none →
      check_reduction_validity indexes r axis =
        Except.error (WinError.ReductionRequired axis)) ∧
    (indexes.length ≤ 1 → check_reduction_validity indexes r axis = Except.ok ()) := by
  constructor
  · intro h1 h2
    rw [check_reduction_validity, if_pos ⟨h1, h2⟩]
  · intro h1
    rw [check_reduction_validity, if_neg]
    rintro ⟨h2, -⟩
    omega

/-- Helper: reading a mapped list at an in-bounds position is the function
applied at that position, whatever the defaults. -/
theorem getD_map_of_lt {α β : Type} (g : α → β) (l : List α) (j : Nat) (d : β)
    (d' : α) (h : j < l.length) : (l.map g).getD j d = g (l.getD j d') := by
  rw [List.getD_eq_getElem?_getD, List.getD_eq_getElem?_getD, List.getElem?_map,
    List.getElem?_eq_getElem h]
  rfl

/-- C5: after the channel-pruning step the five parallel per-channel arrays
still have the same length as one another, and the entries at any common
position all come from one and the same pre-pruning channel position. -/
theorem C5_prune_lockstep (f : Nat → Int → Int → Int → Int → Bool)
    (channels : List Nat) (mins maxs cmaps gams : List Int) :
    ((remove_useless_channels f channels mins maxs cmaps gams).1.length =
        (remove_useless_channels f channels mins maxs cmaps gams).2.1.length ∧
     (remove_useless_channels f channels mins maxs cmaps gams).1.length =
        (remove_useless_channels f channels mins maxs cmaps gams).2.2.1.length ∧
     (remove_useless_channels f channels mins maxs cmaps gams).1.length =
        (remove_useless_channels f channels mins maxs cmaps gams).2.2.2.1.length ∧
     (remove_useless_channels f channels mins maxs cmaps gams).1.length =
        (remove_useless_channels f channels mins maxs cmaps gams).2.2.2.2.length) ∧
    (∀ j, j < (remove_useless_channels f channels mins maxs cmaps gams).1.length →
      ∃ i, i < channels.length ∧
        (remove_useless_channels f channels mins maxs cmaps gams).1.getD j 0 =
          channels.getD i 0 ∧
        (remove_useless_channels f channels mins maxs cmaps gams).2.1.getD j 0 =
          mins.getD i 0 ∧
        (remove_useless_channels f channels mins maxs cmaps gams).2.2.1.getD j 0 =
          maxs.getD i 0 ∧
        (remove_useless_channels f channels mins maxs cmaps gams).2.2.2.1.getD j 0 =
          cmaps.getD i 0 ∧
        (remove_useless_channels f channels mins maxs cmaps gams).2.2.2.2.getD j 0 =
          gams.getD i 0) := by
  unfold remove_useless_channels
  refine ⟨by simp, ?_⟩
  simp only [List.length_map]
  intro j hj
  refine ⟨((List.range channels.length).filter (fun i =>
      ! f (channels.getD i 0) (mins.getD i 0) (maxs.getD i 0)
          (cmaps.getD i 0) (gams.getD i 0))).getD j 0, ?_, ?_, ?_, ?_, ?_, ?_⟩
  · have hmem : ((List.range channels.length).filter (fun i =>
        ! f (channels.getD i 0) (mins.getD i 0) (maxs.getD i 0)
            (cmaps.getD i 0) (gams.getD i 0))).getD j 0 ∈
        (List.range channels.length).filter (fun i =>
          ! f (channels.getD i 0) (mins.getD i 0) (maxs.getD i 0)
              (cmaps.getD i 0) (gams.getD i 0)) := by
      rw [List.getD_eq_getElem?_getD, List.getElem?_eq_getElem hj]
      exact List.getElem_mem hj
    exact List.mem_range.mp (List.mem_filter.mp hmem).1
  · exact getD_map_of_lt _ _ j 0 0 hj
  · exact getD_map_of_lt _ _ j 0 0 hj
  · exact getD_map_of_lt _ _ j 0 0 hj
  · exact getD_map_of_lt _ _ j 0 0 hj
  · exact getD_map_of_lt _ _ j 0 0 hj

/-- C6: the response kind is a mask-derived image exactly when the annotation
payload is supplied and the style mode is `MASK`; every other case yields the
normal windowed image. -/
theorem C6_mask_response_exactly_on_mask_mode (annots : Bool)
    (style : Option AnnotationStyle) :
    (select_window_response annots style = ImageResponseKind.MaskResponse ↔
      annots = true ∧ ∃ st, style = some st ∧ st.mode = AnnotationStyleMode.MASK) ∧
    (select_window_response annots style = ImageResponseKind.WindowResponse ↔
      ¬ (annots = true ∧ ∃ st, style = some st ∧ st.mode = AnnotationStyleMode.MASK)) := by
  cases annots <;> rcases style with _ | ⟨m, pel⟩
  · simp [select_window_response]
  · cases m <;> simp [select_window_response]
  · simp [select_window_response]
  · cases m <;> simp [select_window_response] <;> decide

/-- C7: in `DRAWING` mode the defaults are stroke color `RED` and stroke
width 1, the fill color is among the ignored fields and the point-envelope
length comes from the request; in `MASK` mode the default is fill color
`WHITE`, both stroke fields are ignored and no point-envelope length is
used. -/
theorem C7_style_mode_defaults (pel : Option Nat) :
    ((annotation_parse_settings ⟨AnnotationStyleMode.DRAWING, pel⟩).default_stroke_color =
        some RED ∧
     (annotation_parse_settings ⟨AnnotationStyleMode.DRAWING, pel⟩).default_stroke_width =
        some 1 ∧
     (annotation_parse_settings ⟨AnnotationStyleMode.DRAWING, pel⟩).default_fill_color =
        none ∧
     "fill_color" ∈ (annotation_parse_settings ⟨AnnotationStyleMode.DRAWING, pel⟩).ignored_fields ∧
     (annotation_parse_settings ⟨AnnotationStyleMode.DRAWING, pel⟩).point_envelope_length =
        pel) ∧
    ((annotation_parse_settings ⟨AnnotationStyleMode.MASK, pel⟩).default_fill_color =
        some WHITE ∧
     (annotation_parse_settings ⟨AnnotationStyleMode.MASK, pel⟩).default_stroke_color = none ∧
     (annotation_parse_settings ⟨AnnotationStyleMode.MASK, pel⟩).default_stroke_width = none ∧
     "stroke_color" ∈ (annotation_parse_settings ⟨AnnotationStyleMode.MASK, pel⟩).ignored_fields ∧
     "stroke_width" ∈ (annotation_parse_settings ⟨AnnotationStyleMode.MASK, pel⟩).ignored_fields ∧
     (annotation_parse_settings ⟨AnnotationStyleMode.MASK, pel⟩).point_envelope_length =
        none) := by
  simp [annotation_parse_settings]

/-- C8: resolving the image path parameter fails with the not-found problem
exactly when the file is absent, fails with the no-appropriate-representation
problem exactly when the file exists but cannot serve a single-image
representation, and returns the path exactly otherwise. -/
theorem C8_imagepath_characterization (p : FsPath) :
    (imagepath_parameter p = Except.error WinError.FilepathNotFound ↔
      p.path_exists = false) ∧
    (imagepath_parameter p = Except.error WinError.NoAppropriateRepresentation ↔
      p.path_exists = true ∧ p.is_single = false) ∧
    (imagepath_parameter p = Except.ok p ↔
      p.path_exists = true ∧ p.is_single = true) := by
  rcases p with ⟨e, s⟩
  cases e <;> cases s <;> simp [imagepath_parameter]

/-- C10: every character of the string `sanitize_filename` returns with the
default replacement is either the replacement character or a character
outside the bad-character list, whatever string the library sanitizer
produced. -/
theorem C10_sanitize_removes_bad_chars (s : String) (c : Char)
    (h : c ∈ (sanitize_filename s "-").data) :
    c = '-' ∨ bad_chars.contains c = false := by
  have hdata : (sanitize_filename s "-").data = sanitize_chars s.data ("-".data) := rfl
  rw [hdata] at h
  unfold sanitize_chars at h
  rw [List.mem_flatten] at h
  obtain ⟨piece, hpiece, hc⟩ := h
  rw [List.mem_map] at hpiece
  obtain ⟨c0, hc0, rfl⟩ := hpiece
  by_cases hb : bad_chars.contains c0
  · rw [if_pos hb] at hc
    left
    have hdash : "-".data = [ '-' ] := rfl
    rw [hdash] at hc
    simpa using hc
  · rw [if_neg hb] at hc
    right
    have hcc : c = c0 := by simpa using hc
    rw [hcc]
    exact Bool.eq_false_iff.mpr hb

/-- Witness for C10 at the concrete library output `"a b"`. -/
theorem C10_sanitize_witness :
    ('-' ∈ (sanitize_filename "a b" "-").data) ∧
      ('-' = '-' ∨ bad_chars.contains '-' = false) :=
  ⟨by decide, C10_sanitize_removes_bad_chars "a b" '-' (by decide)⟩
